import Mathlib

/-!
Shallow embedding of `src/main.py` (`SimpleMCPCalculator`): a JSON-RPC/MCP
dispatcher exposing a single `add_numbers` tool.  JSON values decoded by
`json.loads` are modelled by the inductive `Json`; Python floats are modelled
as rationals (`ℚ`); the wall clock (`datetime.now().isoformat()`) is threaded
as an explicit `timestamp` string parameter; Python exceptions raised inside
handlers are modelled by `Except PyErr`, where a `PyErr` carries the exception
class (so `except (ValueError, TypeError)` can be selective) and `str(e)`.
-/

/-- A JSON value as decoded by Python's `json.loads`: `null`/`None`, booleans,
integers, floats (modelled as `ℚ`), strings, arrays and objects (assoc lists;
`json.loads` produces dicts, so keys are effectively unique and lookup takes
the first match). -/
inductive Json : Type where
  | null : Json
  | bool : Bool → Json
  | int : Int → Json
  | float : Rat → Json
  | str : String → Json
  | arr : List Json → Json
  | obj : List (String × Json) → Json

/-- Assoc-list lookup, modelling Python `dict.get(key)` on a decoded JSON
object (`none` when the key is absent). -/
def lookupField : List (String × Json) → String → Option Json
  | [], _ => none
  | (k, v) :: rest, key => if k = key then some v else lookupField rest key

/-- Python type name of a JSON value, as it appears in exception messages. -/
def pyTypeName : Json → String
  | .null => "NoneType"
  | .bool _ => "bool"
  | .int _ => "int"
  | .float _ => "float"
  | .str _ => "str"
  | .arr _ => "list"
  | .obj _ => "dict"

/-- Python truthiness (`if not x`) of a JSON value: `None`, `False`, `0`,
`0.0`, `""`, `[]` and `{}` are falsy, everything else truthy. -/
def truthy : Json → Bool
  | .null => false
  | .bool b => b
  | .int i => i != 0
  | .float q => q != 0
  | .str s => s != ""
  | .arr l => !l.isEmpty
  | .obj l => !l.isEmpty

/-- Python `x is None`. -/
def Json.isNull : Json → Bool
  | .null => true
  | _ => false

/-- Whether the value is a JSON object (Python `isinstance(x, dict)`). -/
def Json.isObj : Json → Bool
  | .obj _ => true
  | _ => false

/-- Python `x == s` for a string literal `s`: true exactly when `x` is the
equal string (a non-string JSON value never equals a `str`). -/
def Json.isStrEq : Json → String → Bool
  | .str t, s => t = s
  | _, _ => false

/-- A raised Python exception: the class (the classes that occur in this
program) together with `str(e)`. -/
inductive PyErr : Type where
  | valueError : String → PyErr
  | typeError : String → PyErr
  | overflowError : String → PyErr
  | attributeError : String → PyErr

/-- `str(e)` of a raised exception. -/
def PyErr.msg : PyErr → String
  | .valueError s => s
  | .typeError s => s
  | .overflowError s => s
  | .attributeError s => s

/-- Whether `except (ValueError, TypeError)` catches the exception
(src/main.py:68); an `OverflowError` or `AttributeError` passes through. -/
def PyErr.isValueOrTypeError : PyErr → Bool
  | .valueError _ => true
  | .typeError _ => true
  | _ => false

/-- Python `x.get(key)` where `x` may be any value: returns the looked-up
field on a dict and raises `AttributeError` (modelled as `Except.error` with
the CPython message) on anything else. -/
def pyDictGet (j : Json) (key : String) : Except PyErr (Option Json) :=
  match j with
  | .obj l => .ok (lookupField l key)
  | _ => .error (.attributeError
      ("\x27" ++ pyTypeName j ++ "\x27 object has no attribute \x27get\x27"))

/-- Decimal digits of the fractional part of a nonnegative rational below 1,
with fuel (display only; Python uses shortest round-trip float repr). -/
def fracDigits : Nat → Rat → String
  | 0, _ => ""
  | n + 1, q =>
    if q = 0 then ""
    else
      let d := (q * 10).floor
      toString d ++ fracDigits n (q * 10 - d)

/-- Python `repr`/`str` of a nonnegative float (modelled as `ℚ`): a whole
number prints with a trailing `.0` (e.g. `2.0`), otherwise the decimal
expansion is printed. -/
def floatReprPos (q : Rat) : String :=
  let ip := q.floor
  if q - ip = 0 then toString ip ++ ".0"
  else toString ip ++ "." ++ fracDigits 17 (q - ip)

/-- Python `repr`/`str` of a float (modelled as `ℚ`). -/
def floatRepr (q : Rat) : String :=
  if q < 0 then "-" ++ floatReprPos (-q) else floatReprPos q

/-- Value of a digit string (caller guarantees all characters are digits). -/
def digitsVal (cs : List Char) : Nat :=
  cs.foldl (fun acc c => acc * 10 + (c.toNat - 48)) 0

/-- Unsigned decimal mantissa: digits with at most one dot, at least one
digit overall (accepts `2`, `2.5`, `1.`, `.5`; rejects `""`, `.`, `abc`). -/
def parseMantissa (cs : List Char) : Option Rat :=
  match cs.splitOn '.' with
  | [ip] =>
    if ip ≠ [] ∧ ip.all Char.isDigit then some (digitsVal ip) else none
  | [ip, fp] =>
    if (ip ≠ [] ∨ fp ≠ []) ∧ ip.all Char.isDigit ∧ fp.all Char.isDigit then
      some ((digitsVal ip : Rat) + (digitsVal fp : Rat) / ((10 : Rat) ^ fp.length))
    else none
  | _ => none

/-- Optional leading sign around a sub-parser. -/
def parseSigned (f : List Char → Option Rat) : List Char → Option Rat
  | '+' :: rest => f rest
  | '-' :: rest => (f rest).map (fun q => -q)
  | cs => f cs

/-- Signed all-digit integer exponent (for scientific notation). -/
def parseExpInt (cs : List Char) : Option Int :=
  match cs with
  | '+' :: rest => if rest ≠ [] ∧ rest.all Char.isDigit then some (digitsVal rest) else none
  | '-' :: rest => if rest ≠ [] ∧ rest.all Char.isDigit then some (-(digitsVal rest : Int)) else none
  | _ => if cs ≠ [] ∧ cs.all Char.isDigit then some (digitsVal cs) else none

/-- Strip leading and trailing whitespace (Python `float` accepts padded
numeric strings). -/
def stripSpaces (cs : List Char) : List Char :=
  ((cs.dropWhile Char.isWhitespace).reverse.dropWhile Char.isWhitespace).reverse

/-- Case-fold the exponent marker (`E` → `e`); every other letter makes the
parse fail anyway, so full lowercasing is not needed. -/
def lowerE (c : Char) : Char := if c = 'E' then 'e' else c

/-- Python `float(s)` on a string: strips whitespace, optional sign, decimal
mantissa with optional scientific-notation exponent.  (The non-finite
literals `inf`/`nan` lie outside the rational model and are not represented,
and underscore digit separators are not modelled; no claim depends on
either.) -/
def parseFloatString (s : String) : Option Rat :=
  let cs := stripSpaces (s.data.map lowerE)
  match cs.splitOn 'e' with
  | [m] => parseSigned parseMantissa m
  | [m, ex] =>
    match parseSigned parseMantissa m, parseExpInt ex with
    | some q, some e => some (q * (10 : Rat) ^ e)
    | _, _ => none
  | _ => none

/-- Smallest integer magnitude at which CPython `float(int)` raises
`OverflowError`: IEEE doubles top out at `2^1024 - 2^971` (ulp `2^971`
there), so round-to-nearest-even sends every integer of magnitude at least
the midpoint `2^1024 - 2^970` to infinity, which `float(int)` reports as an
overflow. -/
def floatOverflowBound : Nat := 2 ^ 1024 - 2 ^ 970

/-- Python `float(x)` on a JSON value: numbers and bools coerce — except that
an integer at or beyond `floatOverflowBound` in magnitude raises
`OverflowError` — strings are parsed (`ValueError` on failure), and
`None`/lists/dicts raise `TypeError`.  Converted values are kept exact as
rationals: IEEE rounding of in-range values is not modelled, and no claim
settled here depends on a rounded value. -/
def pyFloat : Json → Except PyErr Rat
  | .int i =>
    if floatOverflowBound ≤ i.natAbs then
      .error (.overflowError "int too large to convert to float")
    else .ok (i : Rat)
  | .float q => .ok q
  | .bool b => .ok (if b then 1 else 0)
  | .str s =>
    match parseFloatString s with
    | some q => .ok q
    | none => .error (.valueError ("could not convert string to float: \x27" ++ s ++ "\x27"))
  | j => .error (.typeError
      ("float() argument must be a string or a real number, not \x27" ++ pyTypeName j ++ "\x27"))

mutual

/-- Python `str()` of a JSON value, as used by f-string interpolation in the
source (nested container elements render via `repr`, here approximated by
quoting strings and recursing elsewhere). -/
def pyStr : Json → String
  | .null => "None"
  | .bool true => "True"
  | .bool false => "False"
  | .int i => toString i
  | .float q => floatRepr q
  | .str s => s
  | .arr l => "[" ++ pyStrList l ++ "]"
  | .obj l => "\x7b" ++ pyStrFields l ++ "\x7d"

/-- Comma-separated rendering of array elements (strings quoted). -/
def pyStrList : List Json → String
  | [] => ""
  | [Json.str s] => "\x27" ++ s ++ "\x27"
  | [x] => pyStr x
  | Json.str s :: xs => "\x27" ++ s ++ "\x27" ++ ", " ++ pyStrList xs
  | x :: xs => pyStr x ++ ", " ++ pyStrList xs

/-- Comma-separated rendering of object fields (string values quoted). -/
def pyStrFields : List (String × Json) → String
  | [] => ""
  | [(k, Json.str s)] => "\x27" ++ k ++ "\x27: \x27" ++ s ++ "\x27"
  | [(k, v)] => "\x27" ++ k ++ "\x27: " ++ pyStr v
  | (k, Json.str s) :: rest => "\x27" ++ k ++ "\x27: \x27" ++ s ++ "\x27, " ++ pyStrFields rest
  | (k, v) :: rest => "\x27" ++ k ++ "\x27: " ++ pyStr v ++ ", " ++ pyStrFields rest
end

/-- JSON-RPC error object built by `create_response` (every call site of the
source supplies `code` and `message` and never `data`, so the Python
`error.get(..)` defaults never fire; `data` is the always-emitted
`error.get("data")`, `none` standing for Python `None`). -/
structure ErrorObj where
  code : Int
  message : String
  data : Option Json

/-- A JSON-RPC response dict as built by `create_response`: `jsonrpc` and `id`
always present, and the `result`/`error` keys modelled as options (a key is
present iff its option is `some`). -/
structure Response where
  jsonrpc : String
  id : Json
  result? : Option Json
  error? : Option ErrorObj

/-- `SimpleMCPCalculator.create_response` (src/main.py:30-46): id defaults to
"unknown" when the request id is `None`; an error argument wins over a result
argument; a missing result becomes the empty object. -/
def create_response (request_id : Json) (result : Option Json) (error : Option ErrorObj) : Response :=
  let rid := if request_id.isNull then Json.str "unknown" else request_id
  match error with
  | some e => { jsonrpc := "2.0", id := rid, result? := none, error? := some e }
  | none => { jsonrpc := "2.0", id := rid, result? := some (result.getD (Json.obj [])), error? := none }

/-- The per-call dict built by `add_numbers` (src/main.py:48-76): keys
`number1`, `number2`, `result` xor `error`, `operation`, `timestamp`
(an `Option` field is present iff it is `some`). -/
structure CalcResult where
  number1 : Json
  number2 : Json
  result? : Option Json
  error? : Option String
  operation : String
  timestamp : String

/-- `SimpleMCPCalculator.add_numbers` (src/main.py:48-76): converts both inputs
with `float()` (first `num1`, then `num2`); on success stores the converted
values and the sum — as an `int` when the sum is whole, else as a float
(exact rational arithmetic stands in for IEEE doubles, as declared at
`pyFloat`); its `except (ValueError, TypeError)` turns those two exception
classes into an error record with the original inputs and
"Invalid numbers provided: " plus the message, while any other exception
(`OverflowError` from a huge integer) propagates to the caller.  `ts` is the
`datetime.now().isoformat()` stamp. -/
def add_numbers (num1 num2 : Json) (ts : String) : Except PyErr CalcResult :=
  match pyFloat num1 with
  | .ok n1 =>
    match pyFloat num2 with
    | .ok n2 =>
      let sum := n1 + n2
      let result : Json := if sum.den = 1 then Json.int sum.num else Json.float sum
      .ok { number1 := Json.float n1, number2 := Json.float n2, result? := some result,
            error? := none, operation := "addition", timestamp := ts }
    | .error e =>
      if e.isValueOrTypeError then
        .ok { number1 := num1, number2 := num2, result? := none,
              error? := some ("Invalid numbers provided: " ++ e.msg),
              operation := "addition", timestamp := ts }
      else .error e
  | .error e =>
    if e.isValueOrTypeError then
      .ok { number1 := num1, number2 := num2, result? := none,
            error? := some ("Invalid numbers provided: " ++ e.msg),
            operation := "addition", timestamp := ts }
    else .error e

/-- The timestamp-independent outcome of an `add_numbers` call: the stored
`result` value on a normal return, or the escaping exception. -/
def calcOutcome : Except PyErr CalcResult → Except PyErr (Option Json)
  | .ok c => .ok c.result?
  | .error e => .error e

/-- `SimpleMCPCalculator.handle_initialize` (src/main.py:78-103): requires a
truthy `protocolVersion` (Python `if not protocol_version`), echoing it with
the fixed capabilities and serverInfo; `params.get` on a non-dict raises. -/
def handle_initialize (request_id : Json) (params : Json) : Except PyErr Response :=
  match pyDictGet params "protocolVersion" with
  | .error e => .error e
  | .ok pv? =>
    let protocol_version := pv?.getD Json.null
    if truthy protocol_version = false then
      .ok (create_response request_id none
        (some { code := -32602, message := "Invalid params: protocolVersion is required", data := none }))
    else
      .ok (create_response request_id
        (some (Json.obj [
          ("protocolVersion", protocol_version),
          ("capabilities", Json.obj [
            ("tools", Json.obj []), ("resources", Json.obj []), ("prompts", Json.obj [])]),
          ("serverInfo", Json.obj [
            ("name", Json.str "Simple MCP Calculator"),
            ("version", Json.str "1.0.0"),
            ("description", Json.str "Simple calculator that adds two numbers")])]))
        none)

/-- The static tool list returned by `handle_tools_list` (src/main.py:109-130). -/
def toolsListResult : Json :=
  Json.obj [("tools", Json.arr [Json.obj [
    ("name", Json.str "add_numbers"),
    ("description", Json.str "Add two numbers together"),
    ("inputSchema", Json.obj [
      ("type", Json.str "object"),
      ("properties", Json.obj [
        ("number1", Json.obj [
          ("type", Json.str "number"), ("description", Json.str "First number to add")]),
        ("number2", Json.obj [
          ("type", Json.str "number"), ("description", Json.str "Second number to add")])]),
      ("required", Json.arr [Json.str "number1", Json.str "number2"])])]])]

/-- `SimpleMCPCalculator.handle_tools_list` (src/main.py:105-130): ignores
params, always succeeds with the static descriptor list. -/
def handle_tools_list (request_id : Json) (_params : Json) : Except PyErr Response :=
  .ok (create_response request_id (some toolsListResult) none)

/-- The f-string `result_text` of `handle_tools_call` (src/main.py:164-173):
the error block when the calculation reported an error, else the result
block. -/
def calcText (c : CalcResult) : String :=
  match c.error? with
  | some err =>
    "Addition Error:\nNumber 1: " ++ pyStr c.number1 ++ "\nNumber 2: " ++ pyStr c.number2 ++
      "\nError: " ++ err ++ "\nTimestamp: " ++ c.timestamp
  | none =>
    "Addition Result:\n" ++ pyStr c.number1 ++ " + " ++ pyStr c.number2 ++ " = " ++
      pyStr (c.result?.getD Json.null) ++ "\nTimestamp: " ++ c.timestamp

/-- The `result` dict of a successful `tools/call` (src/main.py:175-183): one
text content block plus `isError` set iff the calculation carries an error. -/
def wrapCalc (c : CalcResult) : Json :=
  Json.obj [
    ("content", Json.arr [Json.obj [("type", Json.str "text"), ("text", Json.str (calcText c))]]),
    ("isError", Json.bool c.error?.isSome)]

/-- The `try` block of `handle_tools_call` (src/main.py:151-191): dispatch on
the tool name; `arguments.get` on a non-dict raises (an `Except.error` that
the caller's `except` converts). -/
def tools_call_try (request_id tool_name arguments : Json) (ts : String) : Except PyErr Response :=
  if tool_name.isStrEq "add_numbers" then
    match pyDictGet arguments "number1" with
    | .error e => .error e
    | .ok n1? =>
      match pyDictGet arguments "number2" with
      | .error e => .error e
      | .ok n2? =>
        let number1 := n1?.getD Json.null
        let number2 := n2?.getD Json.null
        if number1.isNull || number2.isNull then
          .ok (create_response request_id none
            (some { code := -32602, message := "Both number1 and number2 are required", data := none }))
        else
          match add_numbers number1 number2 ts with
          | .ok calculation_result =>
            .ok (create_response request_id (some (wrapCalc calculation_result)) none)
          | .error e => .error e
  else
    .ok (create_response request_id none
      (some { code := -32601, message := "Unknown tool: " ++ pyStr tool_name, data := none }))

/-- `SimpleMCPCalculator.handle_tools_call` (src/main.py:132-198): params must
be a dict, `name` must be truthy; the tool dispatch runs under a `try` whose
`except Exception` converts any raised exception into error -32603. -/
def handle_tools_call (request_id : Json) (params : Json) (ts : String) : Response :=
  match params with
  | .obj pl =>
    let tool_name := (lookupField pl "name").getD Json.null
    let arguments := (lookupField pl "arguments").getD (Json.obj [])
    if truthy tool_name = false then
      create_response request_id none
        (some { code := -32602, message := "Invalid params: \x27name\x27 is required", data := none })
    else
      match tools_call_try request_id tool_name arguments ts with
      | .ok r => r
      | .error e =>
        create_response request_id none
          (some { code := -32603, message := "Internal error: " ++ e.msg, data := none })
  | _ =>
    create_response request_id none
      (some { code := -32602, message := "Invalid params: must be an object", data := none })

/-- The `try` block of `handle_request` (src/main.py:227-239): exact-match
dispatch on the method name; unknown methods give -32601.  Exceptions raised
by a handler surface as `Except.error`. -/
def handle_request_try (request_id method params : Json) (ts : String) : Except PyErr Response :=
  if method.isStrEq "initialize" then handle_initialize request_id params
  else if method.isStrEq "tools/list" then handle_tools_list request_id params
  else if method.isStrEq "tools/call" then .ok (handle_tools_call request_id params ts)
  else .ok (create_response request_id none
    (some { code := -32601, message := "Method not found: " ++ pyStr method, data := none }))

/-- `SimpleMCPCalculator.handle_request` (src/main.py:200-245): rejects
non-dict input (-32700), wrong `jsonrpc` (-32600), falsy `method` (-32600);
dispatches on the method name with unknown methods giving -32601; the dispatch
runs under a `try` whose `except Exception` converts any exception escaping a
handler into error -32603 with the message embedded. -/
def handle_request (request : Json) (ts : String) : Response :=
  match request with
  | .obj rl =>
    let jsonrpc := (lookupField rl "jsonrpc").getD Json.null
    if jsonrpc.isStrEq "2.0" = false then
      create_response ((lookupField rl "id").getD Json.null) none
        (some { code := -32600, message := "Invalid Request: jsonrpc must be \x272.0\x27", data := none })
    else
      let method := (lookupField rl "method").getD Json.null
      if truthy method = false then
        create_response ((lookupField rl "id").getD Json.null) none
          (some { code := -32600, message := "Invalid Request: \x27method\x27 is required", data := none })
      else
        let params := (lookupField rl "params").getD (Json.obj [])
        let request_id := (lookupField rl "id").getD Json.null
        match handle_request_try request_id method params ts with
        | .ok r => r
        | .error e =>
          create_response request_id none
            (some { code := -32603, message := "Internal error: " ++ e.msg, data := none })
  | _ =>
    create_response Json.null none
      (some { code := -32700, message := "Parse error: request must be an object", data := none })

theorem create_response_jsonrpc (i : Json) (r : Option Json) (e : Option ErrorObj) :
    (create_response i r e).jsonrpc = "2.0" := by
  cases e <;> simp [create_response]

theorem create_response_one (i : Json) (r : Option Json) (e : Option ErrorObj) :
    (create_response i r e).result?.isSome = !(create_response i r e).error?.isSome := by
  cases e <;> simp [create_response]

theorem handle_initialize_ok (i p : Json) (r : Response)
    (h : handle_initialize i p = .ok r) : ∃ x y z, r = create_response x y z := by
  unfold handle_initialize at h
  split at h
  · exact Except.noConfusion h
  · simp only [] at h
    split at h <;> exact ⟨_, _, _, ((Except.ok.injEq _ _ ▸ h) : _ = r).symm⟩

theorem handle_tools_list_ok (i p : Json) (r : Response)
    (h : handle_tools_list i p = .ok r) : ∃ x y z, r = create_response x y z := by
  unfold handle_tools_list at h
  exact ⟨_, _, _, ((Except.ok.injEq _ _ ▸ h) : _ = r).symm⟩

theorem tools_call_try_ok (i t a : Json) (ts : String) (r : Response)
    (h : tools_call_try i t a ts = .ok r) : ∃ x y z, r = create_response x y z := by
  unfold tools_call_try at h
  split at h
  · split at h
    · exact Except.noConfusion h
    · split at h
      · exact Except.noConfusion h
      · simp only [] at h
        split at h
        · exact ⟨_, _, _, ((Except.ok.injEq _ _ ▸ h) : _ = r).symm⟩
        · split at h
          · exact ⟨_, _, _, ((Except.ok.injEq _ _ ▸ h) : _ = r).symm⟩
          · exact Except.noConfusion h
  · exact ⟨_, _, _, ((Except.ok.injEq _ _ ▸ h) : _ = r).symm⟩

theorem handle_tools_call_shape (i p : Json) (ts : String) :
    ∃ x y z, handle_tools_call i p ts = create_response x y z := by
  unfold handle_tools_call
  split
  · simp only []
    split
    · exact ⟨_, _, _, rfl⟩
    · split
      · next r heq => exact tools_call_try_ok _ _ _ _ r heq
      · exact ⟨_, _, _, rfl⟩
  · exact ⟨_, _, _, rfl⟩

theorem handle_request_try_ok (i m p : Json) (ts : String) (r : Response)
    (h : handle_request_try i m p ts = .ok r) : ∃ x y z, r = create_response x y z := by
  unfold handle_request_try at h
  split at h
  · exact handle_initialize_ok _ _ _ h
  · split at h
    · exact handle_tools_list_ok _ _ _ h
    · split at h
      · obtain ⟨x, y, z, hs⟩ := handle_tools_call_shape i p ts
        refine ⟨x, y, z, ?_⟩
        have hr : handle_tools_call i p ts = r := (Except.ok.injEq _ _ ▸ h : _ = r)
        rw [← hr, hs]
      · exact ⟨_, _, _, ((Except.ok.injEq _ _ ▸ h) : _ = r).symm⟩

theorem handle_request_shape (j : Json) (ts : String) :
    ∃ x y z, handle_request j ts = create_response x y z := by
  unfold handle_request
  split
  · simp only []
    split
    · exact ⟨_, _, _, rfl⟩
    · split
      · exact ⟨_, _, _, rfl⟩
      · split
        · next r heq => exact handle_request_try_ok _ _ _ _ r heq
        · exact ⟨_, _, _, rfl⟩
  · exact ⟨_, _, _, rfl⟩

/-- C1 (counterexample): on the non-mapping input `"hello"` the response does
carry error -32700 with the claimed message, but its id is the string
"unknown", not null — `create_response` replaces a `None` request id with
"unknown", so the claim's "id field is null" is false. -/
theorem parse_error_id_counterexample :
    (handle_request (Json.str "hello") "T").error? =
      some { code := -32700, message := "Parse error: request must be an object", data := none } ∧
    (handle_request (Json.str "hello") "T").id = Json.str "unknown" ∧
    ¬ (handle_request (Json.str "hello") "T").id = Json.null :=
  ⟨rfl, rfl, fun h => Json.noConfusion h⟩

/-- C1 (amended): for every input to `handle_request` that is not a mapping,
the response carries error code -32700 with message "Parse error: request must
be an object", and the response's id field is the string "unknown" (the
dispatcher passes a null id and `create_response` maps null to "unknown"). -/
theorem handle_request_non_mapping (j : Json) (ts : String) (h : j.isObj = false) :
    handle_request j ts =
      { jsonrpc := "2.0", id := Json.str "unknown", result? := none,
        error? := some { code := -32700, message := "Parse error: request must be an object", data := none } } := by
  cases j <;> first | rfl | simp [Json.isObj] at h

/-- C1 (witness): the amended theorem applied to a concrete JSON array. -/
theorem handle_request_non_mapping_witness :
    handle_request (Json.arr [Json.int 1]) "2025-01-01T00:00:00" =
      { jsonrpc := "2.0", id := Json.str "unknown", result? := none,
        error? := some { code := -32700, message := "Parse error: request must be an object", data := none } } :=
  handle_request_non_mapping (Json.arr [Json.int 1]) "2025-01-01T00:00:00" rfl

/-- C2: `handle_request` is total — it is a Lean function into `Response`
(exceptions inside handlers are modelled as `Except.error` and eliminated
inside the definition, never escaping); every output carries a result or an
error, and whenever the dispatch `try` block raises, the response is the
-32603 conversion with the exception message embedded. -/
theorem handle_request_total (j : Json) (ts : String) :
    ((handle_request j ts).result?.isSome = true ∨ (handle_request j ts).error?.isSome = true) ∧
    (∀ (rl : List (String × Json)) (e : PyErr),
      j = Json.obj rl →
      ((lookupField rl "jsonrpc").getD Json.null).isStrEq "2.0" = true →
      truthy ((lookupField rl "method").getD Json.null) = true →
      handle_request_try ((lookupField rl "id").getD Json.null)
        ((lookupField rl "method").getD Json.null)
        ((lookupField rl "params").getD (Json.obj [])) ts = Except.error e →
      (handle_request j ts).error? =
        some { code := -32603, message := "Internal error: " ++ e.msg, data := none }) := by
  constructor
  · obtain ⟨x, y, z, hs⟩ := handle_request_shape j ts
    rw [hs]
    have hone := create_response_one x y z
    cases he : (create_response x y z).error?.isSome
    · left
      simp [hone, he]
    · right
      simp [he]
  · intro rl e hj hrpc hmeth htry
    subst hj
    simp only [handle_request]
    rw [hrpc]
    simp only [Bool.true_eq_false, if_false]
    rw [hmeth]
    simp only [Bool.true_eq_false, if_false]
    rw [htry]
    simp [create_response]

/-- C2 (witness): an `initialize` request whose `params` is a JSON array makes
`params.get` raise inside the handler; `handle_request` still returns a
response, with the exception converted to error -32603. -/
theorem handle_request_total_witness :
    (handle_request (Json.obj [("jsonrpc", Json.str "2.0"), ("method", Json.str "initialize"),
        ("params", Json.arr [])]) "T").error? =
      some { code := -32603,
             message := "Internal error: \x27list\x27 object has no attribute \x27get\x27",
             data := none } :=
  (handle_request_total (Json.obj [("jsonrpc", Json.str "2.0"), ("method", Json.str "initialize"),
      ("params", Json.arr [])]) "T").2
    [("jsonrpc", Json.str "2.0"), ("method", Json.str "initialize"), ("params", Json.arr [])]
    (PyErr.attributeError "\x27list\x27 object has no attribute \x27get\x27") rfl rfl rfl rfl

/-- C3: every response produced by `handle_request` has `jsonrpc = "2.0"` and
carries exactly one of `result` and `error` (the `result` key is present
exactly when the `error` key is absent). -/
theorem handle_request_response_invariant (j : Json) (ts : String) :
    (handle_request j ts).jsonrpc = "2.0" ∧
    (handle_request j ts).result?.isSome = !(handle_request j ts).error?.isSome := by
  obtain ⟨x, y, z, hs⟩ := handle_request_shape j ts
  rw [hs]
  exact ⟨create_response_jsonrpc x y z, create_response_one x y z⟩

/-- C8 (counterexample): for the request `{"jsonrpc": "1.0", "id": null}` the
id key is present (with value null), the response correctly carries error
-32600, but the response id is the string "unknown" rather than the echoed
null — so "id echoed into the response when present" fails for null ids. -/
theorem bad_jsonrpc_null_id_counterexample :
    (handle_request (Json.obj [("jsonrpc", Json.str "1.0"), ("id", Json.null)]) "T").error? =
      some { code := -32600, message := "Invalid Request: jsonrpc must be \x272.0\x27", data := none } ∧
    (handle_request (Json.obj [("jsonrpc", Json.str "1.0"), ("id", Json.null)]) "T").id = Json.str "unknown" ∧
    ¬ (handle_request (Json.obj [("jsonrpc", Json.str "1.0"), ("id", Json.null)]) "T").id = Json.null :=
  ⟨rfl, rfl, fun h => Json.noConfusion h⟩

/-- C8 (amended): for every mapping request whose `jsonrpc` field is not the
string "2.0" (missing or any other value), `handle_request` returns error
-32600 and no result; the request id is echoed when present and non-null,
and otherwise the response id is the string "unknown". -/
theorem handle_request_bad_jsonrpc (rl : List (String × Json)) (ts : String)
    (h : ((lookupField rl "jsonrpc").getD Json.null).isStrEq "2.0" = false) :
    (handle_request (Json.obj rl) ts).error? =
      some { code := -32600, message := "Invalid Request: jsonrpc must be \x272.0\x27", data := none } ∧
    (handle_request (Json.obj rl) ts).result? = none ∧
    (handle_request (Json.obj rl) ts).id =
      (if ((lookupField rl "id").getD Json.null).isNull then Json.str "unknown"
       else (lookupField rl "id").getD Json.null) := by
  simp only [handle_request]
  rw [h]
  simp [create_response, Json.isNull]

/-- C8 (witness): the amended theorem at `{"jsonrpc": "1.0", "id": 7}` — the
error code is -32600 and the non-null id 7 is echoed. -/
theorem handle_request_bad_jsonrpc_witness :
    (handle_request (Json.obj [("jsonrpc", Json.str "1.0"), ("id", Json.int 7)]) "T").error? =
      some { code := -32600, message := "Invalid Request: jsonrpc must be \x272.0\x27", data := none } ∧
    (handle_request (Json.obj [("jsonrpc", Json.str "1.0"), ("id", Json.int 7)]) "T").id = Json.int 7 := by
  have h := handle_request_bad_jsonrpc [("jsonrpc", Json.str "1.0"), ("id", Json.int 7)] "T" rfl
  exact ⟨h.1, h.2.2⟩

/-- C7 (counterexample): the initialize request whose params contain
`protocolVersion: ""` — the key is present, yet the response is error -32602
and carries no result, because the handler tests Python truthiness
(`if not protocol_version`), not key presence. -/
theorem initialize_falsy_protocol_version_counterexample :
    lookupField [("protocolVersion", Json.str "")] "protocolVersion" = some (Json.str "") ∧
    (handle_request (Json.obj [("jsonrpc", Json.str "2.0"), ("method", Json.str "initialize"),
        ("id", Json.int 1), ("params", Json.obj [("protocolVersion", Json.str "")])]) "T").result? = none ∧
    (handle_request (Json.obj [("jsonrpc", Json.str "2.0"), ("method", Json.str "initialize"),
        ("id", Json.int 1), ("params", Json.obj [("protocolVersion", Json.str "")])]) "T").error? =
      some { code := -32602, message := "Invalid params: protocolVersion is required", data := none } :=
  ⟨rfl, rfl, rfl⟩

/-- C7 (amended): for every initialize request whose params mapping carries a
truthy (non-null, non-empty, non-zero) `protocolVersion`, the response is a
success echoing it together with the fixed capabilities object and the fixed
serverInfo; when the params mapping lacks a truthy `protocolVersion` (absent
or falsy), the response is error -32602. -/
theorem handle_initialize_spec (i : Json) (pl : List (String × Json)) :
    (truthy ((lookupField pl "protocolVersion").getD Json.null) = true →
      handle_initialize i (Json.obj pl) =
        .ok (create_response i (some (Json.obj [
          ("protocolVersion", (lookupField pl "protocolVersion").getD Json.null),
          ("capabilities", Json.obj [
            ("tools", Json.obj []), ("resources", Json.obj []), ("prompts", Json.obj [])]),
          ("serverInfo", Json.obj [
            ("name", Json.str "Simple MCP Calculator"),
            ("version", Json.str "1.0.0"),
            ("description", Json.str "Simple calculator that adds two numbers")])])) none)) ∧
    (truthy ((lookupField pl "protocolVersion").getD Json.null) = false →
      handle_initialize i (Json.obj pl) =
        .ok (create_response i none
          (some { code := -32602, message := "Invalid params: protocolVersion is required", data := none }))) := by
  constructor <;> intro h <;> simp [ handle_initialize, pyDictGet, h]

/-- C7 (witness): the amended theorem at a request carrying
`protocolVersion: "2024-11-05"` (success, echoed) and at empty params
(error -32602). -/
theorem handle_initialize_spec_witness :
    handle_initialize (Json.int 1) (Json.obj [("protocolVersion", Json.str "2024-11-05")]) =
      .ok (create_response (Json.int 1) (some (Json.obj [
        ("protocolVersion", Json.str "2024-11-05"),
        ("capabilities", Json.obj [
          ("tools", Json.obj []), ("resources", Json.obj []), ("prompts", Json.obj [])]),
        ("serverInfo", Json.obj [
          ("name", Json.str "Simple MCP Calculator"),
          ("version", Json.str "1.0.0"),
          ("description", Json.str "Simple calculator that adds two numbers")])])) none) ∧
    handle_initialize (Json.int 2) (Json.obj []) =
      .ok (create_response (Json.int 2) none
        (some { code := -32602, message := "Invalid params: protocolVersion is required", data := none })) :=
  ⟨(handle_initialize_spec (Json.int 1) [("protocolVersion", Json.str "2024-11-05")]).1 rfl,
   (handle_initialize_spec (Json.int 2) []).2 rfl⟩

/-- C9: `add_numbers` is deterministic up to the timestamp: two invocations
with the same pair of inputs have the same outcome — the same stored `result`
value (or the same escaping exception) — and `add_numbers(2, 3)` yields
result 5 both times. -/
theorem add_numbers_deterministic (a b : Json) (ts1 ts2 : String) :
    calcOutcome (add_numbers a b ts1) = calcOutcome (add_numbers a b ts2) ∧
    calcOutcome (add_numbers (Json.int 2) (Json.int 3) ts1) = .ok (some (Json.int 5)) := by
  constructor
  · cases hA : pyFloat a with
    | error e => cases he : e.isValueOrTypeError <;> simp [add_numbers, hA, he, calcOutcome]
    | ok q1 =>
      cases hB : pyFloat b with
      | error e => cases he : e.isValueOrTypeError <;> simp [add_numbers, hA, hB, he, calcOutcome]
      | ok q2 => simp [add_numbers, hA, hB, calcOutcome]
  · norm_num [add_numbers, pyFloat, calcOutcome, floatOverflowBound]

theorem string_append_assoc (a b c : String) : a ++ b ++ c = a ++ (b ++ c) := by
  apply String.ext
  simp [String.data_append]

theorem pyDictGet_not_obj (a : Json) (k : String) (h : a.isObj = false) :
    pyDictGet a k = .error (.attributeError
      ("\x27" ++ pyTypeName a ++ "\x27 object has no attribute \x27get\x27")) := by
  cases a <;> first | rfl | simp [Json.isObj] at h

/-- C10: a `tools/call` of `add_numbers` whose `arguments` field is present
but not a mapping makes `arguments.get("number1")` raise `AttributeError`
inside the handler's `try`, so the response is the -32603 internal-error
conversion — not the -32602 invalid-params code used for the other
argument-shape violations. -/
theorem tools_call_non_mapping_arguments
    (pl : List (String × Json)) (i : Json) (ts : String) (a : Json)
    (hname : lookupField pl "name" = some (Json.str "add_numbers"))
    (hargs : lookupField pl "arguments" = some a)
    (hnotobj : a.isObj = false) :
    (handle_tools_call i (Json.obj pl) ts).result? = none ∧
    (handle_tools_call i (Json.obj pl) ts).error? =
      some { code := -32603,
             message := "Internal error: \x27" ++ pyTypeName a ++ "\x27 object has no attribute \x27get\x27",
             data := none } := by
  have hget := pyDictGet_not_obj a "number1" hnotobj
  simp [handle_tools_call, tools_call_try, hname, hargs, truthy, Json.isStrEq, hget,
    create_response, PyErr.msg, string_append_assoc]
  rw [← string_append_assoc]
  rfl

/-- C10 (witness): `arguments: []` (a JSON array) yields error -32603. -/
theorem tools_call_non_mapping_arguments_witness :
    (handle_tools_call (Json.int 3)
        (Json.obj [("name", Json.str "add_numbers"), ("arguments", Json.arr [])]) "T").result? = none ∧
    (handle_tools_call (Json.int 3)
        (Json.obj [("name", Json.str "add_numbers"), ("arguments", Json.arr [])]) "T").error? =
      some { code := -32603,
             message := "Internal error: \x27list\x27 object has no attribute \x27get\x27",
             data := none } :=
  tools_call_non_mapping_arguments [("name", Json.str "add_numbers"), ("arguments", Json.arr [])]
    (Json.int 3) "T" (Json.arr []) rfl rfl rfl

set_option maxRecDepth 10000 in
/-- C4 (counterexample): at `arguments: {number1: 2^1024, number2: 1}` both
arguments are present and non-null, yet the response carries error -32603 and
no result: `float(2^1024)` raises `OverflowError`, which `add_numbers`'
`except (ValueError, TypeError)` does not catch and `handle_tools_call`'s
`except Exception` converts — so the claim's "otherwise the executor is
invoked … isError" success branch is false. -/
theorem tools_call_overflow_counterexample :
    lookupField [("number1", Json.int (Int.ofNat (2 ^ 1024))), ("number2", Json.int 1)] "number1" =
      some (Json.int (Int.ofNat (2 ^ 1024))) ∧
    (Json.int (Int.ofNat (2 ^ 1024))).isNull = false ∧
    (handle_tools_call (Json.int 9) (Json.obj [("name", Json.str "add_numbers"),
        ("arguments", Json.obj [("number1", Json.int (Int.ofNat (2 ^ 1024))),
          ("number2", Json.int 1)])]) "T").result? = none ∧
    (handle_tools_call (Json.int 9) (Json.obj [("name", Json.str "add_numbers"),
        ("arguments", Json.obj [("number1", Json.int (Int.ofNat (2 ^ 1024))),
          ("number2", Json.int 1)])]) "T").error? =
      some { code := -32603, message := "Internal error: int too large to convert to float",
             data := none } :=
  ⟨rfl, rfl, rfl, rfl⟩

/-- C4 (amended): for a `tools/call` naming `add_numbers` with mapping params
(non-empty name) and mapping arguments: a missing or null operand gives error
-32602; when both operands are present and non-null but conversion raises an
exception `add_numbers` does not catch (an `OverflowError` from an integer
too large for a float), the response is the -32603 conversion of that
exception; otherwise the executor returns and its outcome is wrapped into a
single content block of type "text", with `isError` true exactly when the
executor's result contains an error. -/
theorem tools_call_add_numbers_behavior
    (pl al : List (String × Json)) (i : Json) (ts : String)
    (hname : lookupField pl "name" = some (Json.str "add_numbers"))
    (hargs : (lookupField pl "arguments").getD (Json.obj []) = Json.obj al) :
    ((((lookupField al "number1").getD Json.null).isNull = true ∨
      ((lookupField al "number2").getD Json.null).isNull = true) →
      handle_tools_call i (Json.obj pl) ts =
        create_response i none
          (some { code := -32602, message := "Both number1 and number2 are required", data := none })) ∧
    (((lookupField al "number1").getD Json.null).isNull = false →
     ((lookupField al "number2").getD Json.null).isNull = false →
     ∀ e : PyErr, add_numbers ((lookupField al "number1").getD Json.null)
         ((lookupField al "number2").getD Json.null) ts = .error e →
      handle_tools_call i (Json.obj pl) ts =
        create_response i none
          (some { code := -32603, message := "Internal error: " ++ e.msg, data := none })) ∧
    (((lookupField al "number1").getD Json.null).isNull = false →
     ((lookupField al "number2").getD Json.null).isNull = false →
     ∀ c : CalcResult, add_numbers ((lookupField al "number1").getD Json.null)
         ((lookupField al "number2").getD Json.null) ts = .ok c →
      (handle_tools_call i (Json.obj pl) ts).error? = none ∧
      (handle_tools_call i (Json.obj pl) ts).result? =
        some (Json.obj [
          ("content", Json.arr [Json.obj [
            ("type", Json.str "text"), ("text", Json.str (calcText c))]]),
          ("isError", Json.bool c.error?.isSome)])) := by
  refine ⟨?_, ?_, ?_⟩
  · intro hnull
    rcases hnull with hn | hn <;>
      simp [handle_tools_call, tools_call_try, hname, hargs, truthy, Json.isStrEq, pyDictGet, hn]
  · intro h1 h2 e he
    simp [handle_tools_call, tools_call_try, hname, hargs, truthy, Json.isStrEq, pyDictGet,
      h1, h2, he, create_response]
  · intro h1 h2 c hc
    simp [handle_tools_call, tools_call_try, hname, hargs, truthy, Json.isStrEq, pyDictGet,
      h1, h2, hc, wrapCalc, create_response]

set_option maxRecDepth 10000 in
/-- C4 (witness): the amended theorem at `{number1: 2, number2: 3}` (executor
returns normally), at `{number1: 2}` (error -32602), and at
`{number1: 2^1024, number2: 1}` (uncaught overflow, error -32603). -/
theorem tools_call_add_numbers_behavior_witness :
    (handle_tools_call (Json.int 7) (Json.obj [("name", Json.str "add_numbers"),
        ("arguments", Json.obj [("number1", Json.int 2), ("number2", Json.int 3)])]) "T").error? = none ∧
    handle_tools_call (Json.int 8) (Json.obj [("name", Json.str "add_numbers"),
        ("arguments", Json.obj [("number1", Json.int 2)])]) "T" =
      create_response (Json.int 8) none
        (some { code := -32602, message := "Both number1 and number2 are required", data := none }) ∧
    handle_tools_call (Json.int 9) (Json.obj [("name", Json.str "add_numbers"),
        ("arguments", Json.obj [("number1", Json.int (Int.ofNat (2 ^ 1024))), ("number2", Json.int 1)])]) "T" =
      create_response (Json.int 9) none
        (some { code := -32603, message := "Internal error: int too large to convert to float",
                data := none }) := by
  refine ⟨?_, ?_, ?_⟩
  · obtain ⟨c, hc⟩ : ∃ c, add_numbers (Json.int 2) (Json.int 3) "T" = .ok c := ⟨_, rfl⟩
    exact ((tools_call_add_numbers_behavior
      [("name", Json.str "add_numbers"),
       ("arguments", Json.obj [("number1", Json.int 2), ("number2", Json.int 3)])]
      [("number1", Json.int 2), ("number2", Json.int 3)] (Json.int 7) "T" rfl rfl).2.2 rfl rfl c hc).1
  · exact (tools_call_add_numbers_behavior
      [("name", Json.str "add_numbers"), ("arguments", Json.obj [("number1", Json.int 2)])]
      [("number1", Json.int 2)] (Json.int 8) "T" rfl rfl).1 (Or.inr rfl)
  · exact (tools_call_add_numbers_behavior
      [("name", Json.str "add_numbers"),
       ("arguments", Json.obj [("number1", Json.int (Int.ofNat (2 ^ 1024))), ("number2", Json.int 1)])]
      [("number1", Json.int (Int.ofNat (2 ^ 1024))), ("number2", Json.int 1)] (Json.int 9) "T" rfl rfl).2.1
      rfl rfl (PyErr.overflowError "int too large to convert to float") rfl

theorem calcText_error (c : CalcResult) (err : String) (h : c.error? = some err) :
    calcText c = "Addition Error:\nNumber 1: " ++ pyStr c.number1 ++ "\nNumber 2: " ++
      pyStr c.number2 ++ "\nError: " ++ err ++ "\nTimestamp: " ++ c.timestamp := by
  simp [calcText, h]

theorem add_numbers_error_form (n1 n2 : Json) (ts : String)
    (hbad : (∃ e, pyFloat n1 = .error e ∧ PyErr.isValueOrTypeError e = true) ∨
            ((∃ q, pyFloat n1 = .ok q) ∧
             (∃ e, pyFloat n2 = .error e ∧ PyErr.isValueOrTypeError e = true))) :
    ∃ c e, add_numbers n1 n2 ts = .ok c ∧
      c.error? = some ("Invalid numbers provided: " ++ PyErr.msg e) ∧
      c.number1 = n1 ∧ c.number2 = n2 ∧ c.timestamp = ts := by
  rcases hbad with ⟨e, he, hcaught⟩ | ⟨⟨q, hq⟩, ⟨e, he, hcaught⟩⟩
  · refine ⟨CalcResult.mk n1 n2 none (some ("Invalid numbers provided: " ++ PyErr.msg e))
        "addition" ts, e, ?_, rfl, rfl, rfl, rfl⟩
    simp [add_numbers, he, hcaught]
  · refine ⟨CalcResult.mk n1 n2 none (some ("Invalid numbers provided: " ++ PyErr.msg e))
        "addition" ts, e, ?_, rfl, rfl, rfl, rfl⟩
    simp [add_numbers, hq, he, hcaught]

theorem invalid_numbers_infix (a b e t : String) :
    List.IsInfix ("Invalid numbers provided").data
      ("Addition Error:\nNumber 1: " ++ a ++ "\nNumber 2: " ++ b ++ "\nError: " ++
        ("Invalid numbers provided: " ++ e) ++ "\nTimestamp: " ++ t).data := by
  refine ⟨("Addition Error:\nNumber 1: " ++ a ++ "\nNumber 2: " ++ b ++ "\nError: ").data,
    (": " ++ e ++ "\nTimestamp: " ++ t).data, ?_⟩
  have hsplit : ("Invalid numbers provided: " : String).data =
      ("Invalid numbers provided" : String).data ++ (": " : String).data := rfl
  simp [String.data_append, List.append_assoc, hsplit]

/-- C5: a `tools/call` of `add_numbers` where a supplied non-null argument
fails float conversion with a `ValueError`/`TypeError` (the caught kinds,
e.g. `number1: "abc"`) is an RPC-level success: the executor returns an
error-shaped record rather than raising, the response has a result and no
top-level error, `isError` is true, and the content text contains
"Invalid numbers provided". -/
theorem tools_call_invalid_numbers
    (pl al : List (String × Json)) (i : Json) (ts : String) (n1 n2 : Json)
    (hname : lookupField pl "name" = some (Json.str "add_numbers"))
    (hargs : (lookupField pl "arguments").getD (Json.obj []) = Json.obj al)
    (h1 : lookupField al "number1" = some n1)
    (h2 : lookupField al "number2" = some n2)
    (hn1 : n1.isNull = false) (hn2 : n2.isNull = false)
    (hbad : (∃ e, pyFloat n1 = .error e ∧ PyErr.isValueOrTypeError e = true) ∨
            ((∃ q, pyFloat n1 = .ok q) ∧
             (∃ e, pyFloat n2 = .error e ∧ PyErr.isValueOrTypeError e = true))) :
    ∃ c : CalcResult,
      add_numbers n1 n2 ts = .ok c ∧
      c.error?.isSome = true ∧
      (handle_tools_call i (Json.obj pl) ts).error? = none ∧
      (handle_tools_call i (Json.obj pl) ts).result? =
        some (Json.obj [
          ("content", Json.arr [Json.obj [("type", Json.str "text"),
            ("text", Json.str (calcText c))]]),
          ("isError", Json.bool true)]) ∧
      List.IsInfix ("Invalid numbers provided").data (calcText c).data := by
  obtain ⟨c, e, heq, herr, hN1, hN2, hTs⟩ := add_numbers_error_form n1 n2 ts hbad
  have hisSome : c.error?.isSome = true := by rw [herr]; rfl
  refine ⟨c, heq, hisSome, ?_, ?_, ?_⟩
  · simp [handle_tools_call, tools_call_try, hname, hargs, truthy, Json.isStrEq, pyDictGet,
      h1, h2, hn1, hn2, heq, wrapCalc, create_response]
  · simp [handle_tools_call, tools_call_try, hname, hargs, truthy, Json.isStrEq, pyDictGet,
      h1, h2, hn1, hn2, heq, wrapCalc, create_response, hisSome]
  · rw [calcText_error c _ herr]
    exact invalid_numbers_infix _ _ _ _

/-- C5 (witness): `arguments: {number1: "abc", number2: 1}` — the executor
returns an error record, the RPC response is a success with `isError: true`,
and the content text contains "Invalid numbers provided". -/
theorem tools_call_invalid_numbers_witness :
    ∃ c : CalcResult,
      add_numbers (Json.str "abc") (Json.int 1) "T" = .ok c ∧
      c.error?.isSome = true ∧
      (handle_tools_call (Json.int 1) (Json.obj [("name", Json.str "add_numbers"),
          ("arguments", Json.obj [("number1", Json.str "abc"),
            ("number2", Json.int 1)])]) "T").error? = none ∧
      (handle_tools_call (Json.int 1) (Json.obj [("name", Json.str "add_numbers"),
          ("arguments", Json.obj [("number1", Json.str "abc"),
            ("number2", Json.int 1)])]) "T").result? =
        some (Json.obj [
          ("content", Json.arr [Json.obj [("type", Json.str "text"),
            ("text", Json.str (calcText c))]]),
          ("isError", Json.bool true)]) ∧
      List.IsInfix ("Invalid numbers provided").data (calcText c).data :=
  tools_call_invalid_numbers
    [("name", Json.str "add_numbers"),
     ("arguments", Json.obj [("number1", Json.str "abc"), ("number2", Json.int 1)])]
    [("number1", Json.str "abc"), ("number2", Json.int 1)]
    (Json.int 1) "T" (Json.str "abc") (Json.int 1) rfl rfl rfl rfl rfl rfl
    (Or.inl ⟨PyErr.valueError "could not convert string to float: \x27abc\x27", rfl, rfl⟩)
